import Mathlib

/-
Verification of docker_stats_exporter (src/main.go) against its
natural-language specification.

Shallow embedding notes:
  - Go uint64 fields are modelled as Nat; the accumulating additions in the
    network and block-I/O loops wrap modulo 2^64 exactly as Go addition does,
    written explicitly as `% u64Lim`.
  - Go maps (MemoryStats.Stats, StatsJSON.Networks, exporter.extraLabels) are
    modelled as association lists.  A Go `for ... range` over a map visits the
    entries in an unspecified order that may differ between iterations, so the
    label map of the exporter is passed to `collectContainer` as an explicit
    enumeration (`extraLabels` list); distinct scrapes or containers may see
    different enumerations of the same map, which the theorems make explicit
    by quantifying over permutations.
  - text/template evaluation (labelTemplate.Execute) is modelled abstractly as
    a function from the template data to the string written into the buffer
    together with a success flag; main.go line 78 ignores the returned error,
    which the embedding mirrors by using only the string component.
  - prometheus.MustNewConstMetric emitting on the channel is modelled by
    returning the list of samples in emission order; the float64 conversions
    are modelled as exact casts into ℚ.
  - docker API calls are modelled as per-container oracles (ContainerEnv):
    ContainerInspect either yields metadata or an error, and the one-shot
    stats request either fails at fetch, fails at JSON decode, or yields a
    decoded StatsJSON.
  - container.Names[0] on an empty slice is a Go runtime panic; the model
    returns the distinguished outcome `CollectResult.panicked`.
  - log.Fatalf prints and calls os.Exit(1); in the scrape model this is the
    distinguished result `ScrapeResult.processExit`.
-/

/-- 2^64, the modulus of Go's uint64 arithmetic. -/
def u64Lim : Nat := 2 ^ 64

/-- stats.CPUStats.CPUUsage (docker types): cumulative CPU time in nanoseconds. -/
structure CPUUsage where
  totalUsage : Nat
deriving DecidableEq

/-- stats.CPUStats (docker types). -/
structure CPUStats where
  cpuUsage : CPUUsage
deriving DecidableEq

/-- stats.MemoryStats (docker types): resident usage, the per-category
breakdown map (association list), and the limit. -/
structure MemoryStats where
  usage : Nat
  stats : List (String × Nat)
  limit : Nat
deriving DecidableEq

/-- One entry of stats.Networks (docker types). -/
structure NetworkStats where
  rxBytes : Nat
  txBytes : Nat
deriving DecidableEq

/-- One record of stats.BlkioStats.IoServiceBytesRecursive (docker types). -/
structure BlkioStatEntry where
  op : String
  value : Nat
deriving DecidableEq

/-- stats.BlkioStats (docker types). -/
structure BlkioStats where
  ioServiceBytesRecursive : List BlkioStatEntry
deriving DecidableEq

/-- stats.PidsStats (docker types). -/
structure PidsStats where
  current : Nat
deriving DecidableEq

/-- types.StatsJSON as consumed by collectContainer: the decoded one-shot
stats snapshot.  Networks is a map keyed by interface name. -/
structure StatsJSON where
  cpuStats : CPUStats
  memoryStats : MemoryStats
  networks : List (String × NetworkStats)
  blkioStats : BlkioStats
  pidsStats : PidsStats
deriving DecidableEq

/-- types.Container as used by collectContainer: ID, name list, lifecycle
state string. -/
structure Container where
  id : String
  names : List String
  state : String

/-- types.ContainerJSON, the full inspected metadata.  collectContainer only
passes it opaquely into the label templates, so it is abstracted to a bag of
fields. -/
structure ContainerJSON where
  raw : List (String × String)

/-- The anonymous struct of main.go lines 70-76 handed to template execution. -/
structure TemplateData where
  container : Container
  containerJSON : ContainerJSON

/-- A parsed text/template for one custom label: applied to the template data
it yields the string written into the bytes.Buffer and a success flag
(false when Execute returned an error; main.go line 78 discards that error). -/
def LabelTemplate : Type := TemplateData → String × Bool

/-- nsToS (main.go lines 206-208): nanoseconds to seconds, time.Second = 1e9. -/
def nsToS (ns : Nat) : ℚ := (ns : ℚ) / 1000000000

/-- strings.Trim(s, "/") (main.go line 68): remove every leading and every
trailing '/' character. -/
def goTrimSlash (s : String) : String :=
  String.mk (((s.data.dropWhile (fun c => c == '/')).reverse.dropWhile
    (fun c => c == '/')).reverse)

/-- The memory derivation of main.go lines 115-128: start from
stats.MemoryStats.Usage; pick cache key "total_inactive_file" if present
(cgroup v1), else "inactive_file"; if the chosen key is present, clamp-subtract
its value. -/
def memoryUsageBytes (m : MemoryStats) : Nat :=
  let memoryBytes := m.usage
  let cacheKey :=
    if (m.stats.lookup "total_inactive_file").isSome then "total_inactive_file"
    else "inactive_file"
  match m.stats.lookup cacheKey with
  | some cacheBytes => if memoryBytes < cacheBytes then 0 else memoryBytes - cacheBytes
  | none => memoryBytes

/-- The rxBytes accumulation of main.go lines 147-151: a uint64 accumulator
over all network interfaces, wrapping modulo 2^64. -/
def rxSum (networks : List (String × NetworkStats)) : Nat :=
  networks.foldl (fun acc n => (acc + n.2.rxBytes) % u64Lim) 0

/-- The txBytes accumulation of main.go lines 147-151. -/
def txSum (networks : List (String × NetworkStats)) : Nat :=
  networks.foldl (fun acc n => (acc + n.2.txBytes) % u64Lim) 0

/-- One iteration of the block-I/O loop of main.go lines 170-178: the switch
on blkioStat.Op adds the byte count to the read accumulator on "read", to the
write accumulator on "write", and ignores every other tag. -/
def blkioStep (acc : Nat × Nat) (s : BlkioStatEntry) : Nat × Nat :=
  if s.op = "read" then ((acc.1 + s.value) % u64Lim, acc.2)
  else if s.op = "write" then (acc.1, (acc.2 + s.value) % u64Lim)
  else acc

/-- Both block-I/O accumulators after the loop of main.go lines 170-178. -/
def blkioTotals (records : List BlkioStatEntry) : Nat × Nat :=
  records.foldl blkioStep (0, 0)

/-- readBytes after the block-I/O loop (main.go line 184). -/
def blkioRead (records : List BlkioStatEntry) : Nat := (blkioTotals records).1

/-- writeBytes after the block-I/O loop (main.go line 191). -/
def blkioWrite (records : List BlkioStatEntry) : Nat := (blkioTotals records).2

/-- Spec-side formula: sum of byte counts over exactly the records whose
operation tag is the string "read" (case-sensitive). -/
def readSpec (records : List BlkioStatEntry) : Nat :=
  ((records.filter (fun s => s.op == "read")).map BlkioStatEntry.value).sum

/-- Spec-side formula: sum of byte counts over exactly the records whose
operation tag is the string "write" (case-sensitive). -/
def writeSpec (records : List BlkioStatEntry) : Nat :=
  ((records.filter (fun s => s.op == "write")).map BlkioStatEntry.value).sum

/-- Kind of an emitted metric. -/
inductive MetricKind where
  | gauge
  | counter
deriving DecidableEq

/-- One emitted sample: prometheus.MustNewConstMetric(NewDesc(name, "",
labelsNames, nil), kind, value, labelsValues...). -/
structure MetricSample where
  name : String
  kind : MetricKind
  labelNames : List String
  labelValues : List String
  value : ℚ
deriving DecidableEq

/-- Result of the one-shot stats request plus JSON decoding
(main.go lines 95-104). -/
inductive StatsFetch where
  | fetchErr (msg : String)
  | decodeErr (msg : String)
  | ok (stats : StatsJSON)

/-- The docker-API responses one container's collection will observe. -/
structure ContainerEnv where
  containerInspect : Except String ContainerJSON
  containerStatsOneShot : StatsFetch

/-- Outcome of collectContainer: normal return nil, an error return, or a Go
runtime panic (which no line of collectContainer catches). -/
inductive CollectResult where
  | ok
  | err (msg : String)
  | panicked (msg : String)
deriving DecidableEq

/-- labelsNames as built by main.go lines 67-79: the static "name" label
followed by the custom label names in the order this scrape's map iteration
presented them. -/
def labelsNamesOf (extraLabels : List (String × LabelTemplate)) : List String :=
  "name" :: extraLabels.map Prod.fst

/-- labelsValues as built by main.go lines 68-80: the trimmed first container
name followed by each template's buffer content (the error from Execute is
discarded, so the written string is used even on failure). -/
def labelsValuesOf (extraLabels : List (String × LabelTemplate)) (name0 : String)
    (td : TemplateData) : List String :=
  goTrimSlash name0 :: extraLabels.map (fun p => (p.2 td).1)

/-- The info sample of main.go lines 84-89. -/
def infoSampleOf (extraLabels : List (String × LabelTemplate)) (name0 : String)
    (td : TemplateData) : MetricSample :=
  ⟨"docker_container_info", .gauge, labelsNamesOf extraLabels,
    labelsValuesOf extraLabels name0 td, 1⟩

/-- The eight resource samples of main.go lines 106-201, in emission order. -/
def resourceSamples (ln lv : List String) (stats : StatsJSON) : List MetricSample :=
  [⟨"docker_container_cpu_seconds_total", .counter, ln, lv,
      nsToS stats.cpuStats.cpuUsage.totalUsage⟩,
   ⟨"docker_container_memory_usage_bytes", .gauge, ln, lv,
      (memoryUsageBytes stats.memoryStats : ℚ)⟩,
   ⟨"docker_container_memory_limit_bytes", .gauge, ln, lv,
      (stats.memoryStats.limit : ℚ)⟩,
   ⟨"docker_container_network_rx_bytes_total", .counter, ln, lv,
      (rxSum stats.networks : ℚ)⟩,
   ⟨"docker_container_network_tx_bytes_total", .counter, ln, lv,
      (txSum stats.networks : ℚ)⟩,
   ⟨"docker_container_blkio_read_bytes_total", .counter, ln, lv,
      (blkioRead stats.blkioStats.ioServiceBytesRecursive : ℚ)⟩,
   ⟨"docker_container_blkio_write_bytes_total", .counter, ln, lv,
      (blkioWrite stats.blkioStats.ioServiceBytesRecursive : ℚ)⟩,
   ⟨"docker_container_pids", .gauge, ln, lv,
      (stats.pidsStats.current : ℚ)⟩]

/-- collectContainer (main.go lines 61-204).  Returns the samples sent to the
channel, in order, together with the outcome.  `extraLabels` is the order in
which this call's `for ... range e.extraLabels` visits the label map. -/
def collectContainer (extraLabels : List (String × LabelTemplate))
    (env : ContainerEnv) (container : Container) :
    List MetricSample × CollectResult :=
  match env.containerInspect with
  | .error msg => ([], .err msg)
  | .ok containerJson =>
    match container.names with
    | [] => ([], .panicked "index out of range")
    | name0 :: _ =>
      let infoSample := infoSampleOf extraLabels name0 ⟨container, containerJson⟩
      if container.state ≠ "running" then
        ([infoSample], .ok)
      else
        match env.containerStatsOneShot with
        | .fetchErr msg => ([infoSample], .err ("cannot get stats: " ++ msg))
        | .decodeErr msg => ([infoSample], .err ("cannot decode stats: " ++ msg))
        | .ok stats =>
          (infoSample :: resourceSamples (labelsNamesOf extraLabels)
            (labelsValuesOf extraLabels name0 ⟨container, containerJson⟩) stats, .ok)

/-- One listed container together with the docker-API responses its goroutine
will observe and the map-iteration order its goroutine will see for
e.extraLabels.  All orders in one scrape enumerate the same map; Go does not
fix the sequence. -/
structure ContainerWork where
  container : Container
  env : ContainerEnv
  labelsOrder : List (String × LabelTemplate)

/-- Overall outcome of Collect: either log.Fatalf terminated the process
(main.go line 42), or the scrape finished and each listed container
contributed the samples its goroutine emitted (channel interleaving between
containers is unordered, so outputs are grouped per container). -/
inductive ScrapeResult where
  | processExit (logMsg : String)
  | done (outputs : List (List MetricSample))

/-- Collect (main.go lines 36-59).  Per-container errors are only logged
(lines 53-55): the samples already emitted stand and the scrape continues;
the wait-group barrier makes the scrape complete after every container. -/
def Collect (containerList : Except String (List ContainerWork)) : ScrapeResult :=
  match containerList with
  | .error msg => .processExit ("cannot list containers: " ++ msg)
  | .ok works =>
    .done (works.map (fun w => (collectContainer w.labelsOrder w.env w.container).1))

/-- Modelled from the claim's words (for claim C9 only): strip the leading
path separators from the first name and leave the rest of the string,
including trailing separators, unchanged. -/
def claimDisplayName (s : String) : String :=
  String.mk (s.data.dropWhile (fun c => c == '/'))

/-- Concrete inspected metadata used by the witnesses. -/
def cjEx : ContainerJSON := ⟨[]⟩

/-- A template that renders successfully to the empty string. -/
def tmplEmpty : LabelTemplate := fun _ => ("", true)

/-- A template whose execution fails having written nothing (e.g. a reference
to a field absent from the context): Execute returns an error and the buffer
stays empty. -/
def tmplFail : LabelTemplate := fun _ => ("", false)

/-- A running container named "/nginx". -/
def nginxC : Container := ⟨"abc123", ["/nginx"], "running"⟩

/-- An exited container named "/redis". -/
def redisC : Container := ⟨"def456", ["/redis"], "exited"⟩

/-- An exited container whose first name also has a trailing separator. -/
def slashC : Container := ⟨"id9", ["/nginx/"], "exited"⟩

/-- A listed container with an empty name slice. -/
def noNameC : Container := ⟨"id0", [], "running"⟩

/-- A concrete decoded stats snapshot (the spec's reference nginx numbers). -/
def statsEx : StatsJSON :=
  ⟨⟨⟨138186000000⟩⟩, ⟨4280320, [("inactive_file", 0)], 3521634304⟩,
    [("eth0", ⟨6062, 9047⟩)], ⟨[⟨"read", 77824⟩, ⟨"write", 8192⟩]⟩, ⟨5⟩⟩

/-- Environment where inspection and the stats request both succeed. -/
def envOk : ContainerEnv := ⟨.ok cjEx, .ok statsEx⟩

/-- Environment where inspection succeeds but the stats request fails. -/
def envStatsFail : ContainerEnv := ⟨.ok cjEx, .fetchErr "connection reset"⟩

/-- Label map enumerated alpha-first. -/
def orderAB : List (String × LabelTemplate) := [("alpha", tmplEmpty), ("beta", tmplEmpty)]

/-- The same label map enumerated beta-first. -/
def orderBA : List (String × LabelTemplate) := [("beta", tmplEmpty), ("alpha", tmplEmpty)]

/-- A one-entry label map whose template always fails. -/
def orderFail : List (String × LabelTemplate) := [("health", tmplFail)]

/-- A breakdown map where the cache amount exceeds resident usage. -/
def memW : MemoryStats := ⟨3, [("total_inactive_file", 5)], 100⟩

/-- Two interfaces for the network-sum witness. -/
def netW : List (String × NetworkStats) := [("eth0", ⟨6062, 9047⟩), ("eth1", ⟨100, 200⟩)]

/-- Block-I/O records with read, write, and ignored tags. -/
def blkioW : List BlkioStatEntry :=
  [⟨"read", 77824⟩, ⟨"write", 8192⟩, ⟨"async", 100⟩, ⟨"Read", 7⟩, ⟨"total", 85916⟩]

/-- The works list for the failure-isolation witness: first container's stats
fetch fails, second succeeds. -/
def worksW : List ContainerWork :=
  [⟨nginxC, envStatsFail, []⟩, ⟨nginxC, envOk, []⟩]

/-- A uint64-wrapping left fold equals the plain sum as long as the plain sum
stays below 2^64. -/
theorem foldl_wrapAdd {α : Type} (f : α → Nat) (l : List α) : ∀ a : Nat,
    a + (l.map f).sum < u64Lim →
    l.foldl (fun acc x => (acc + f x) % u64Lim) a = a + (l.map f).sum := by
  induction l with
  | nil => intro a _; simp
  | cons x xs ih =>
    intro a h
    simp only [List.map_cons, List.sum_cons] at h ⊢
    rw [List.foldl_cons, Nat.mod_eq_of_lt (by omega), ih (a + f x) (by omega)]
    omega

/-- The two-accumulator block-I/O fold computes the filtered sums, as long as
both filtered sums stay below 2^64. -/
theorem blkio_foldl_eq (records : List BlkioStatEntry) : ∀ a b : Nat,
    a + readSpec records < u64Lim → b + writeSpec records < u64Lim →
    records.foldl blkioStep (a, b) = (a + readSpec records, b + writeSpec records) := by
  induction records with
  | nil => intro a b _ _; simp [readSpec, writeSpec]
  | cons x xs ih =>
    intro a b ha hb
    by_cases hr1 : x.op = "read"
    · have hne : ¬ x.op = "write" := by rw [hr1]; decide
      have hrc : readSpec (x :: xs) = x.value + readSpec xs := by
        simp [readSpec, List.filter_cons, hr1]
      have hwc : writeSpec (x :: xs) = writeSpec xs := by
        simp [writeSpec, List.filter_cons, hne]
      rw [hrc] at ha
      rw [hwc] at hb
      have hstep : blkioStep (a, b) x = ((a + x.value) % u64Lim, b) := by
        simp [blkioStep, hr1]
      have hmod : (a + x.value) % u64Lim = a + x.value := Nat.mod_eq_of_lt (by omega)
      have hih := ih (a + x.value) b (by omega) hb
      rw [List.foldl_cons, hstep, hmod, hih, hrc, hwc]
      simp only [Prod.mk.injEq, and_true, true_and]
      omega
    · by_cases hw1 : x.op = "write"
      · have hrc : readSpec (x :: xs) = readSpec xs := by
          simp [readSpec, List.filter_cons, hr1]
        have hwc : writeSpec (x :: xs) = x.value + writeSpec xs := by
          simp [writeSpec, List.filter_cons, hw1]
        rw [hrc] at ha
        rw [hwc] at hb
        have hstep : blkioStep (a, b) x = (a, (b + x.value) % u64Lim) := by
          simp [blkioStep, hr1, hw1]
        have hmod : (b + x.value) % u64Lim = b + x.value := Nat.mod_eq_of_lt (by omega)
        have hih := ih a (b + x.value) ha (by omega)
        rw [List.foldl_cons, hstep, hmod, hih, hrc, hwc]
        simp only [Prod.mk.injEq, and_true, true_and]
        omega
      · have hrc : readSpec (x :: xs) = readSpec xs := by
          simp [readSpec, List.filter_cons, hr1]
        have hwc : writeSpec (x :: xs) = writeSpec xs := by
          simp [writeSpec, List.filter_cons, hw1]
        rw [hrc] at ha
        rw [hwc] at hb
        have hstep : blkioStep (a, b) x = (a, b) := by
          simp [blkioStep, hr1, hw1]
        have hih := ih a b ha hb
        rw [List.foldl_cons, hstep, hih, hrc, hwc]

/-- Claim C1: for every usage snapshot, the derived memory_usage_bytes value
equals resident memory minus the cache amount looked up in the breakdown map
under "total_inactive_file" when present, else under "inactive_file" when
present; with neither key the resident value is unmodified; and when the
cache amount exceeds the resident amount the result is clamped to 0, never
negative (max-0 form over ℤ). -/
theorem memory_usage_derivation (m : MemoryStats) :
    ((m.stats.lookup "total_inactive_file" = none ∧
        m.stats.lookup "inactive_file" = none) →
      memoryUsageBytes m = m.usage) ∧
    (∀ cacheBytes, m.stats.lookup "total_inactive_file" = some cacheBytes →
      (memoryUsageBytes m : ℤ) = max 0 ((m.usage : ℤ) - (cacheBytes : ℤ))) ∧
    (∀ cacheBytes, m.stats.lookup "total_inactive_file" = none →
      m.stats.lookup "inactive_file" = some cacheBytes →
      (memoryUsageBytes m : ℤ) = max 0 ((m.usage : ℤ) - (cacheBytes : ℤ))) ∧
    0 ≤ (memoryUsageBytes m : ℤ) := by
  refine ⟨?_, ?_, ?_, Int.natCast_nonneg _⟩
  · rintro ⟨h1, h2⟩
    simp [memoryUsageBytes, h1, h2]
  · intro cacheBytes hc
    simp only [memoryUsageBytes, hc, Option.isSome_some, if_true]
    by_cases hlt : m.usage < cacheBytes
    · simp only [hlt, if_true]
      omega
    · simp only [hlt, if_false]
      omega
  · intro cacheBytes h1 hc
    simp only [memoryUsageBytes, h1, Option.isSome_none, Bool.false_eq_true,
      if_false, hc]
    by_cases hlt : m.usage < cacheBytes
    · simp only [hlt, if_true]
      omega
    · simp only [hlt, if_false]
      omega

/-- Witness for claim C1 at a concrete breakdown map where the cache amount
(5) exceeds resident usage (3): the result is clamped to 0. -/
theorem memory_usage_derivation_witness :
    (memoryUsageBytes memW : ℤ) = max 0 ((memW.usage : ℤ) - (5 : ℤ)) ∧
    memoryUsageBytes memW = 0 :=
  ⟨(memory_usage_derivation memW).2.1 5 rfl, rfl⟩

/-- Claim C6: blkio_read_bytes_total sums the byte counts of exactly the
records tagged "read" (case-sensitive), blkio_write_bytes_total those tagged
"write"; records with any other tag contribute to neither (they are filtered
out of both sums).  Side condition: the filtered sums fit in uint64, matching
the wrapping accumulators. -/
theorem blkio_sums (records : List BlkioStatEntry)
    (hr : readSpec records < u64Lim) (hw : writeSpec records < u64Lim) :
    blkioRead records = readSpec records ∧
    blkioWrite records = writeSpec records := by
  have h := blkio_foldl_eq records 0 0 (by omega) (by omega)
  have h1 : blkioTotals records = (readSpec records, writeSpec records) := by
    unfold blkioTotals
    rw [h]
    simp
  constructor
  · unfold blkioRead
    rw [h1]
  · unfold blkioWrite
    rw [h1]

/-- Witness for claim C6: on records tagged "read", "write", "async", "Read"
and "total", only the exact lowercase "read"/"write" records contribute. -/
theorem blkio_sums_witness :
    (blkioRead blkioW = readSpec blkioW ∧ blkioWrite blkioW = writeSpec blkioW) ∧
    blkioRead blkioW = 77824 ∧ blkioWrite blkioW = 8192 :=
  ⟨blkio_sums blkioW (by decide) (by decide), by decide, by decide⟩

/-- Claim C7: network_rx_bytes_total is the sum of received bytes over every
listed interface and network_tx_bytes_total the sum of transmitted bytes; on
an empty interface list both totals are 0.  Side condition: the sums fit in
uint64, matching the wrapping accumulators. -/
theorem network_sums (networks : List (String × NetworkStats))
    (hrx : (networks.map (fun n => n.2.rxBytes)).sum < u64Lim)
    (htx : (networks.map (fun n => n.2.txBytes)).sum < u64Lim) :
    rxSum networks = (networks.map (fun n => n.2.rxBytes)).sum ∧
    txSum networks = (networks.map (fun n => n.2.txBytes)).sum ∧
    rxSum [] = 0 ∧ txSum [] = 0 := by
  refine ⟨?_, ?_, rfl, rfl⟩
  · have h := foldl_wrapAdd (fun n => n.2.rxBytes) networks 0 (by omega)
    simpa [rxSum] using h
  · have h := foldl_wrapAdd (fun n => n.2.txBytes) networks 0 (by omega)
    simpa [txSum] using h

/-- Witness for claim C7 at two concrete interfaces. -/
theorem network_sums_witness :
    (rxSum netW = (netW.map (fun n => n.2.rxBytes)).sum ∧
      txSum netW = (netW.map (fun n => n.2.txBytes)).sum ∧
      rxSum [] = 0 ∧ txSum [] = 0) ∧
    rxSum netW = 6162 ∧ txSum netW = 9247 :=
  ⟨network_sums netW (by decide) (by decide), by decide, by decide⟩

/-- Branch lemma: inspection succeeded, the name list is non-empty, and the
container is not running: only the info sample is sent, normal return. -/
theorem collectContainer_nonrunning (extraLabels : List (String × LabelTemplate))
    (env : ContainerEnv) (container : Container) (containerJson : ContainerJSON)
    (name0 : String) (rest : List String)
    (hIns : env.containerInspect = .ok containerJson)
    (hNames : container.names = name0 :: rest)
    (hState : container.state ≠ "running") :
    collectContainer extraLabels env container =
      ([infoSampleOf extraLabels name0 ⟨container, containerJson⟩], .ok) := by
  unfold collectContainer
  rw [hIns, hNames]
  simp only [if_pos hState]

/-- Branch lemma: running container whose stats request fails at fetch. -/
theorem collectContainer_fetchErr (extraLabels : List (String × LabelTemplate))
    (env : ContainerEnv) (container : Container) (containerJson : ContainerJSON)
    (name0 : String) (rest : List String) (msg : String)
    (hIns : env.containerInspect = .ok containerJson)
    (hNames : container.names = name0 :: rest)
    (hState : container.state = "running")
    (hStats : env.containerStatsOneShot = .fetchErr msg) :
    collectContainer extraLabels env container =
      ([infoSampleOf extraLabels name0 ⟨container, containerJson⟩],
        .err ("cannot get stats: " ++ msg)) := by
  unfold collectContainer
  rw [hIns, hNames, hStats]
  simp [hState]

/-- Branch lemma: running container whose stats stream fails to decode. -/
theorem collectContainer_decodeErr (extraLabels : List (String × LabelTemplate))
    (env : ContainerEnv) (container : Container) (containerJson : ContainerJSON)
    (name0 : String) (rest : List String) (msg : String)
    (hIns : env.containerInspect = .ok containerJson)
    (hNames : container.names = name0 :: rest)
    (hState : container.state = "running")
    (hStats : env.containerStatsOneShot = .decodeErr msg) :
    collectContainer extraLabels env container =
      ([infoSampleOf extraLabels name0 ⟨container, containerJson⟩],
        .err ("cannot decode stats: " ++ msg)) := by
  unfold collectContainer
  rw [hIns, hNames, hStats]
  simp [hState]

/-- Branch lemma: running container with decoded stats: info sample followed
by the eight resource samples, normal return. -/
theorem collectContainer_statsOk (extraLabels : List (String × LabelTemplate))
    (env : ContainerEnv) (container : Container) (containerJson : ContainerJSON)
    (name0 : String) (rest : List String) (stats : StatsJSON)
    (hIns : env.containerInspect = .ok containerJson)
    (hNames : container.names = name0 :: rest)
    (hState : container.state = "running")
    (hStats : env.containerStatsOneShot = .ok stats) :
    collectContainer extraLabels env container =
      (infoSampleOf extraLabels name0 ⟨container, containerJson⟩ ::
        resourceSamples (labelsNamesOf extraLabels)
          (labelsValuesOf extraLabels name0 ⟨container, containerJson⟩) stats,
        .ok) := by
  unfold collectContainer
  rw [hIns, hNames, hStats]
  simp [hState]

/-- Claim C2: a container whose lifecycle state is not "running" and whose
inspection succeeds yields exactly one sample, the info gauge of value 1 with
the container's labels, and zero resource samples. -/
theorem nonrunning_emits_info_only (extraLabels : List (String × LabelTemplate))
    (env : ContainerEnv) (container : Container) (containerJson : ContainerJSON)
    (name0 : String) (rest : List String)
    (hIns : env.containerInspect = .ok containerJson)
    (hNames : container.names = name0 :: rest)
    (hState : container.state ≠ "running") :
    collectContainer extraLabels env container =
      ([infoSampleOf extraLabels name0 ⟨container, containerJson⟩], .ok) ∧
    (infoSampleOf extraLabels name0 ⟨container, containerJson⟩).name =
      "docker_container_info" ∧
    (infoSampleOf extraLabels name0 ⟨container, containerJson⟩).kind = .gauge ∧
    (infoSampleOf extraLabels name0 ⟨container, containerJson⟩).value = 1 ∧
    (infoSampleOf extraLabels name0 ⟨container, containerJson⟩).labelNames =
      labelsNamesOf extraLabels :=
  ⟨collectContainer_nonrunning extraLabels env container containerJson name0 rest
      hIns hNames hState, rfl, rfl, rfl, rfl⟩

/-- Witness for claim C2: the exited "/redis" container emits exactly the one
info sample. -/
theorem nonrunning_emits_info_only_witness :
    (collectContainer ([] : List (String × LabelTemplate)) envStatsFail redisC =
      ([infoSampleOf [] "/redis" ⟨redisC, cjEx⟩], .ok) ∧
     (infoSampleOf ([] : List (String × LabelTemplate)) "/redis"
        ⟨redisC, cjEx⟩).name = "docker_container_info" ∧
     (infoSampleOf ([] : List (String × LabelTemplate)) "/redis"
        ⟨redisC, cjEx⟩).kind = .gauge ∧
     (infoSampleOf ([] : List (String × LabelTemplate)) "/redis"
        ⟨redisC, cjEx⟩).value = 1 ∧
     (infoSampleOf ([] : List (String × LabelTemplate)) "/redis"
        ⟨redisC, cjEx⟩).labelNames = labelsNamesOf []) ∧
    labelsValuesOf ([] : List (String × LabelTemplate)) "/redis" ⟨redisC, cjEx⟩ =
      ["redis"] :=
  ⟨nonrunning_emits_info_only [] envStatsFail redisC cjEx "/redis" [] rfl rfl
      (by decide), by decide⟩

/-- Claim C4 (code_bug evidence): when container enumeration fails the code
does not report a scrape-local failure; log.Fatalf at main.go line 42
terminates the whole process. -/
theorem enumeration_failure_exits_process :
    Collect (.error "connection refused") =
      .processExit "cannot list containers: connection refused" := rfl

/-- Claim C10: a listed container with an empty name list makes
collectContainer index into the empty slice: a runtime panic, not an error
return, with no sample emitted first. -/
theorem empty_names_panics (extraLabels : List (String × LabelTemplate))
    (env : ContainerEnv) (container : Container) (containerJson : ContainerJSON)
    (hIns : env.containerInspect = .ok containerJson)
    (hNames : container.names = []) :
    collectContainer extraLabels env container =
      ([], .panicked "index out of range") := by
  unfold collectContainer
  rw [hIns, hNames]

/-- Witness for claim C10 at a concrete container with an empty name slice. -/
theorem empty_names_panics_witness :
    collectContainer ([] : List (String × LabelTemplate)) envOk noNameC =
      ([], .panicked "index out of range") :=
  empty_names_panics [] envOk noNameC cjEx rfl rfl

/-- Claim C3: when one container's stats fetch or decode fails after its
inspection succeeded, the scrape still finishes (never processExit), that
container still contributes exactly its info sample, and every other listed
container contributes exactly the samples its own collection produces. -/
theorem stats_failure_isolated (works : List ContainerWork) (k : Nat)
    (w : ContainerWork) (containerJson : ContainerJSON)
    (name0 : String) (rest : List String) (msg : String)
    (hw : works[k]? = some w)
    (hIns : w.env.containerInspect = .ok containerJson)
    (hNames : w.container.names = name0 :: rest)
    (hFail : w.env.containerStatsOneShot = .fetchErr msg ∨
             w.env.containerStatsOneShot = .decodeErr msg) :
    ∃ outputs, Collect (.ok works) = .done outputs ∧
      outputs.length = works.length ∧
      outputs[k]? = some [infoSampleOf w.labelsOrder name0 ⟨w.container, containerJson⟩] ∧
      ∀ j, j ≠ k → outputs[j]? =
        (works[j]?).map (fun u => (collectContainer u.labelsOrder u.env u.container).1) := by
  have hsamples :
      (collectContainer w.labelsOrder w.env w.container).1 =
        [infoSampleOf w.labelsOrder name0 ⟨w.container, containerJson⟩] := by
    by_cases hState : w.container.state = "running"
    · rcases hFail with hF | hF
      · rw [collectContainer_fetchErr w.labelsOrder w.env w.container containerJson
          name0 rest msg hIns hNames hState hF]
      · rw [collectContainer_decodeErr w.labelsOrder w.env w.container containerJson
          name0 rest msg hIns hNames hState hF]
    · rw [collectContainer_nonrunning w.labelsOrder w.env w.container containerJson
        name0 rest hIns hNames hState]
  refine ⟨works.map (fun u => (collectContainer u.labelsOrder u.env u.container).1),
    ?_, ?_, ?_, ?_⟩
  · rfl
  · exact List.length_map _ _
  · rw [List.getElem?_map, hw]
    simp only [Option.map_some']
    rw [hsamples]
  · intro j _
    rw [List.getElem?_map]

/-- Witness for claim C3: two running "/nginx" containers, the first with a
failing stats fetch; the scrape finishes, the first contributes only its info
sample and the second its own full output. -/
theorem stats_failure_isolated_witness :
    ∃ outputs, Collect (.ok worksW) = .done outputs ∧
      outputs.length = worksW.length ∧
      outputs[0]? = some [infoSampleOf [] "/nginx" ⟨nginxC, cjEx⟩] ∧
      ∀ j, j ≠ 0 → outputs[j]? =
        (worksW[j]?).map (fun u => (collectContainer u.labelsOrder u.env u.container).1) :=
  stats_failure_isolated worksW 0 ⟨nginxC, envStatsFail, []⟩ cjEx "/nginx" [] "connection reset"
    rfl rfl rfl (Or.inl rfl)

/-- Every resource sample carries the labelsNames list it was built with. -/
theorem mem_resourceSamples_labelNames (ln lv : List String) (stats : StatsJSON)
    (s : MetricSample) (hs : s ∈ resourceSamples ln lv stats) : s.labelNames = ln := by
  simp only [resourceSamples, List.mem_cons, List.not_mem_nil, or_false] at hs
  rcases hs with h | h | h | h | h | h | h | h <;> (subst h; rfl)

/-- Every sample emitted by one collectContainer call carries the same
labelsNames list: "name" followed by the custom label names in this call's
map-iteration order. -/
theorem collectContainer_labelNames (extraLabels : List (String × LabelTemplate))
    (env : ContainerEnv) (container : Container) :
    ∀ s ∈ (collectContainer extraLabels env container).1,
      s.labelNames = labelsNamesOf extraLabels := by
  intro s hs
  cases hIns : env.containerInspect with
  | error msg =>
    unfold collectContainer at hs
    rw [hIns] at hs
    simp at hs
  | ok cj =>
    cases hN : container.names with
    | nil =>
      unfold collectContainer at hs
      rw [hIns, hN] at hs
      simp at hs
    | cons name0 rest =>
      by_cases hState : container.state = "running"
      · cases hF : env.containerStatsOneShot with
        | fetchErr m =>
          rw [collectContainer_fetchErr extraLabels env container cj name0 rest m
            hIns hN hState hF] at hs
          simp at hs
          subst hs
          rfl
        | decodeErr m =>
          rw [collectContainer_decodeErr extraLabels env container cj name0 rest m
            hIns hN hState hF] at hs
          simp at hs
          subst hs
          rfl
        | ok stats =>
          rw [collectContainer_statsOk extraLabels env container cj name0 rest stats
            hIns hN hState hF] at hs
          rcases List.mem_cons.mp hs with h | h
          · subst h; rfl
          · exact mem_resourceSamples_labelNames _ _ _ _ h
      · rw [collectContainer_nonrunning extraLabels env container cj name0 rest
          hIns hN hState] at hs
        simp at hs
        subst hs
        rfl

/-- Claim C5 counterexample: the same container collected twice against the
same label map, whose Go map iteration presented the entries in two different
(equally legal) orders, emits samples with different label-name lists, so the
list is not the same for every scrape of the run. -/
theorem label_order_not_invariant_cex :
    orderAB.Perm orderBA ∧
    (collectContainer orderAB envStatsFail redisC).1.map MetricSample.labelNames =
      [["name", "alpha", "beta"]] ∧
    (collectContainer orderBA envStatsFail redisC).1.map MetricSample.labelNames =
      [["name", "beta", "alpha"]] ∧
    (["name", "alpha", "beta"] : List String) ≠ ["name", "beta", "alpha"] :=
  ⟨List.Perm.swap _ _ _, rfl, rfl, by decide⟩

/-- Claim C5 amended: within one collection of one container every emitted
sample carries the identical label-name list ("name" then the custom labels in
that call's map-iteration order), and whenever the iteration order enumerates
the configured label map the label-name list is a permutation of "name"
followed by the configured labels, so its set is invariant across containers
and scrapes even though its order is not. -/
theorem labels_consistent (extraLabels decl : List (String × LabelTemplate))
    (env : ContainerEnv) (container : Container)
    (hPerm : extraLabels.Perm decl) :
    ∀ s ∈ (collectContainer extraLabels env container).1,
      s.labelNames = labelsNamesOf extraLabels ∧
      s.labelNames.Perm (labelsNamesOf decl) := by
  intro s hs
  have h1 := collectContainer_labelNames extraLabels env container s hs
  refine ⟨h1, ?_⟩
  rw [h1]
  exact (hPerm.map Prod.fst).cons "name"

/-- Witness for the amended claim C5: the info sample of an exited container
collected under the beta-first enumeration of the alpha/beta label map. -/
theorem labels_consistent_witness :
    (infoSampleOf orderBA "/redis" ⟨redisC, cjEx⟩).labelNames = labelsNamesOf orderBA ∧
    (infoSampleOf orderBA "/redis" ⟨redisC, cjEx⟩).labelNames.Perm (labelsNamesOf orderAB) :=
  labels_consistent orderBA orderAB envStatsFail redisC (List.Perm.swap _ _ _)
    (infoSampleOf orderBA "/redis" ⟨redisC, cjEx⟩) (List.Mem.head _)

/-- Whenever inspection succeeded and the name list is non-empty, the first
emitted sample is the info sample, in every stats branch. -/
theorem collectContainer_head_info (extraLabels : List (String × LabelTemplate))
    (env : ContainerEnv) (container : Container) (containerJson : ContainerJSON)
    (name0 : String) (rest : List String)
    (hIns : env.containerInspect = .ok containerJson)
    (hNames : container.names = name0 :: rest) :
    ∃ rest2, (collectContainer extraLabels env container).1 =
      infoSampleOf extraLabels name0 ⟨container, containerJson⟩ :: rest2 := by
  by_cases hState : container.state = "running"
  · cases hF : env.containerStatsOneShot with
    | fetchErr m =>
      exact ⟨[], by rw [collectContainer_fetchErr extraLabels env container containerJson
        name0 rest m hIns hNames hState hF]⟩
    | decodeErr m =>
      exact ⟨[], by rw [collectContainer_decodeErr extraLabels env container containerJson
        name0 rest m hIns hNames hState hF]⟩
    | ok stats =>
      exact ⟨resourceSamples (labelsNamesOf extraLabels)
        (labelsValuesOf extraLabels name0 ⟨container, containerJson⟩) stats,
        by rw [collectContainer_statsOk extraLabels env container containerJson
          name0 rest stats hIns hNames hState hF]⟩
  · exact ⟨[], by rw [collectContainer_nonrunning extraLabels env container containerJson
      name0 rest hIns hNames hState]⟩

/-- Whenever inspection succeeded and the name list is non-empty, the call
never panics: the outcome is a normal or error return in every branch. -/
theorem collectContainer_no_panic (extraLabels : List (String × LabelTemplate))
    (env : ContainerEnv) (container : Container) (containerJson : ContainerJSON)
    (name0 : String) (rest : List String)
    (hIns : env.containerInspect = .ok containerJson)
    (hNames : container.names = name0 :: rest) :
    ∀ msg, (collectContainer extraLabels env container).2 ≠ .panicked msg := by
  intro msg
  by_cases hState : container.state = "running"
  · cases hF : env.containerStatsOneShot with
    | fetchErr m =>
      rw [collectContainer_fetchErr extraLabels env container containerJson
        name0 rest m hIns hNames hState hF]
      exact fun h => CollectResult.noConfusion h
    | decodeErr m =>
      rw [collectContainer_decodeErr extraLabels env container containerJson
        name0 rest m hIns hNames hState hF]
      exact fun h => CollectResult.noConfusion h
    | ok stats =>
      rw [collectContainer_statsOk extraLabels env container containerJson
        name0 rest stats hIns hNames hState hF]
      exact fun h => CollectResult.noConfusion h
  · rw [collectContainer_nonrunning extraLabels env container containerJson
      name0 rest hIns hNames hState]
    exact fun h => CollectResult.noConfusion h

/-- A running container with decoded stats emits exactly 9 samples. -/
theorem collectContainer_statsOk_length (extraLabels : List (String × LabelTemplate))
    (env : ContainerEnv) (container : Container) (containerJson : ContainerJSON)
    (name0 : String) (rest : List String) (stats : StatsJSON)
    (hIns : env.containerInspect = .ok containerJson)
    (hNames : container.names = name0 :: rest)
    (hState : container.state = "running")
    (hStats : env.containerStatsOneShot = .ok stats) :
    (collectContainer extraLabels env container).1.length = 9 := by
  rw [collectContainer_statsOk extraLabels env container containerJson
    name0 rest stats hIns hNames hState hStats]
  rfl

/-- Claim C8: a custom-label template whose evaluation fails (here: fails
having written nothing into the buffer) does not abort the container's
collection and never panics: the info sample still leads the output carrying
the label values as built, the empty string stands in the value list for the
failed label, and a running container with decoded stats still emits all 9
samples. -/
theorem label_failure_harmless (extraLabels : List (String × LabelTemplate))
    (env : ContainerEnv) (container : Container) (containerJson : ContainerJSON)
    (name0 : String) (rest : List String) (labelName : String) (tmpl : LabelTemplate)
    (hIns : env.containerInspect = .ok containerJson)
    (hNames : container.names = name0 :: rest)
    (hMem : (labelName, tmpl) ∈ extraLabels)
    (hFail : tmpl ⟨container, containerJson⟩ = ("", false)) :
    (∃ rest2, (collectContainer extraLabels env container).1 =
      infoSampleOf extraLabels name0 ⟨container, containerJson⟩ :: rest2) ∧
    (infoSampleOf extraLabels name0 ⟨container, containerJson⟩).labelValues =
      labelsValuesOf extraLabels name0 ⟨container, containerJson⟩ ∧
    ("" : String) ∈ labelsValuesOf extraLabels name0 ⟨container, containerJson⟩ ∧
    (∀ msg, (collectContainer extraLabels env container).2 ≠ .panicked msg) ∧
    (∀ stats, env.containerStatsOneShot = .ok stats → container.state = "running" →
      (collectContainer extraLabels env container).1.length = 9) := by
  refine ⟨collectContainer_head_info extraLabels env container containerJson
      name0 rest hIns hNames, rfl, ?_,
    collectContainer_no_panic extraLabels env container containerJson
      name0 rest hIns hNames, ?_⟩
  · have h2 : (tmpl ⟨container, containerJson⟩).1 ∈
        extraLabels.map (fun p => (p.2 ⟨container, containerJson⟩).1) :=
      List.mem_map_of_mem _ hMem
    rw [hFail] at h2
    exact List.mem_cons_of_mem _ h2
  · intro stats hS hState
    exact collectContainer_statsOk_length extraLabels env container containerJson
      name0 rest stats hIns hNames hState hS

/-- Witness for claim C8: the running "/nginx" container collected with a
one-entry label map whose template fails; the info sample leads, the empty
string is its label value, and all 9 samples are emitted. -/
theorem label_failure_harmless_witness :
    (∃ rest2, (collectContainer orderFail envOk nginxC).1 =
      infoSampleOf orderFail "/nginx" ⟨nginxC, cjEx⟩ :: rest2) ∧
    (infoSampleOf orderFail "/nginx" ⟨nginxC, cjEx⟩).labelValues =
      labelsValuesOf orderFail "/nginx" ⟨nginxC, cjEx⟩ ∧
    ("" : String) ∈ labelsValuesOf orderFail "/nginx" ⟨nginxC, cjEx⟩ ∧
    (∀ msg, (collectContainer orderFail envOk nginxC).2 ≠ .panicked msg) ∧
    (∀ stats, envOk.containerStatsOneShot = .ok stats → nginxC.state = "running" →
      (collectContainer orderFail envOk nginxC).1.length = 9) :=
  label_failure_harmless orderFail envOk nginxC cjEx "/nginx" [] "health" tmplFail
    rfl rfl (List.Mem.head _) rfl

/-- The head of a dropWhile result never satisfies the dropped predicate. -/
theorem dropWhile_head?_not {α : Type} (p : α → Bool) (l : List α) :
    ∀ c, (l.dropWhile p).head? = some c → p c = false := by
  induction l with
  | nil => intro c h; simp [List.dropWhile] at h
  | cons x xs ih =>
    intro c h
    rw [List.dropWhile_cons] at h
    by_cases hx : p x
    · rw [if_pos hx] at h
      exact ih c h
    · rw [if_neg hx] at h
      simp only [List.head?_cons, Option.some.injEq] at h
      subst h
      simpa using hx

/-- dropWhile only removes a front segment, so a non-empty result keeps the
original last element. -/
theorem dropWhile_getLast?_of_ne_nil {α : Type} (p : α → Bool) (l : List α)
    (h : l.dropWhile p ≠ []) :
    (l.dropWhile p).getLast? = l.getLast? := by
  induction l with
  | nil => simp [List.dropWhile] at h
  | cons x xs ih =>
    rw [List.dropWhile_cons] at h ⊢
    by_cases hx : p x
    · rw [if_pos hx] at h ⊢
      cases xs with
      | nil => simp [List.dropWhile] at h
      | cons y ys => rw [ih h, List.getLast?_cons_cons]
    · rw [if_neg hx]

/-- Trimming a predicate from both ends decomposes the list into a dropped
front segment, the trimmed core, and a dropped back segment. -/
theorem trimBoth_decomp {α : Type} (p : α → Bool) (l : List α) :
    l = l.takeWhile p ++ ((l.dropWhile p).reverse.dropWhile p).reverse ++
      ((l.dropWhile p).reverse.takeWhile p).reverse := by
  conv_lhs => rw [← List.takeWhile_append_dropWhile p l]
  rw [List.append_assoc]
  congr 1
  generalize l.dropWhile p = m
  conv_lhs => rw [← List.reverse_reverse m, ← List.takeWhile_append_dropWhile p m.reverse]
  rw [List.reverse_append]

/-- Full characterisation of strings.Trim(s, "/"): the original string is a
run of slashes, then the result, then a run of slashes, and the result
neither starts nor ends with a slash. -/
theorem goTrimSlash_spec (s : String) :
    (∃ pre post, s.data = pre ++ (goTrimSlash s).data ++ post ∧
      (∀ c ∈ pre, c = '/') ∧ (∀ c ∈ post, c = '/')) ∧
    (∀ c, (goTrimSlash s).data.head? = some c → c ≠ '/') ∧
    (∀ c, (goTrimSlash s).data.getLast? = some c → c ≠ '/') := by
  have hdata : (goTrimSlash s).data =
      ((s.data.dropWhile (fun a => a == '/')).reverse.dropWhile
        (fun a => a == '/')).reverse := rfl
  refine ⟨⟨s.data.takeWhile (fun a => a == '/'),
    ((s.data.dropWhile (fun a => a == '/')).reverse.takeWhile (fun a => a == '/')).reverse,
    ?_, ?_, ?_⟩, ?_, ?_⟩
  · rw [hdata]
    exact trimBoth_decomp (fun a => a == '/') s.data
  · intro c hc
    have := List.mem_takeWhile_imp hc
    simpa using this
  · intro c hc
    have := List.mem_takeWhile_imp (List.mem_reverse.mp hc)
    simpa using this
  · intro c hc
    rw [hdata, List.head?_reverse] at hc
    have hdne : (s.data.dropWhile (fun a => a == '/')).reverse.dropWhile
        (fun a => a == '/') ≠ [] := by
      intro h0
      rw [h0] at hc
      simp at hc
    rw [dropWhile_getLast?_of_ne_nil (fun a => a == '/') _ hdne,
      List.getLast?_reverse] at hc
    have := dropWhile_head?_not (fun a => a == '/') s.data c hc
    simpa using this
  · intro c hc
    rw [hdata, List.getLast?_reverse] at hc
    have := dropWhile_head?_not (fun a => a == '/')
      (s.data.dropWhile (fun a => a == '/')).reverse c hc
    simpa using this

/-- Claim C9 counterexample: for first name "/nginx/" the code's "name" label
value is "nginx" (strings.Trim removes the trailing separator too), while the
claim's leading-only derivation yields "nginx/". -/
theorem display_name_claim_cex :
    (collectContainer ([] : List (String × LabelTemplate)) envStatsFail slashC).1.map
      MetricSample.labelValues = [["nginx"]] ∧
    claimDisplayName "/nginx/" = "nginx/" ∧
    (["nginx"] : List String) ≠ ["nginx/"] :=
  ⟨rfl, by decide, by decide⟩

/-- Claim C9 amended: the "name" label value is the first name with all
leading AND all trailing path separators removed (strings.Trim semantics):
the first name splits as slashes ++ value ++ slashes and the value neither
starts nor ends with a separator. -/
theorem display_name_trims_both (extraLabels : List (String × LabelTemplate))
    (env : ContainerEnv) (container : Container) (containerJson : ContainerJSON)
    (name0 : String) (rest : List String)
    (hIns : env.containerInspect = .ok containerJson)
    (hNames : container.names = name0 :: rest) :
    (∃ rest2, (collectContainer extraLabels env container).1 =
      infoSampleOf extraLabels name0 ⟨container, containerJson⟩ :: rest2) ∧
    (infoSampleOf extraLabels name0 ⟨container, containerJson⟩).labelValues.head? =
      some (goTrimSlash name0) ∧
    (∃ pre post, name0.data = pre ++ (goTrimSlash name0).data ++ post ∧
      (∀ c ∈ pre, c = '/') ∧ (∀ c ∈ post, c = '/')) ∧
    (∀ c, (goTrimSlash name0).data.head? = some c → c ≠ '/') ∧
    (∀ c, (goTrimSlash name0).data.getLast? = some c → c ≠ '/') :=
  ⟨collectContainer_head_info extraLabels env container containerJson name0 rest hIns hNames,
    rfl, (goTrimSlash_spec name0).1, (goTrimSlash_spec name0).2.1,
    (goTrimSlash_spec name0).2.2⟩

/-- Witness for the amended claim C9 at the concrete first name "/nginx/",
whose trimmed label value is "nginx". -/
theorem display_name_trims_both_witness :
    ((∃ rest2, (collectContainer ([] : List (String × LabelTemplate)) envStatsFail slashC).1 =
      infoSampleOf [] "/nginx/" ⟨slashC, cjEx⟩ :: rest2) ∧
    (infoSampleOf ([] : List (String × LabelTemplate)) "/nginx/"
        ⟨slashC, cjEx⟩).labelValues.head? = some (goTrimSlash "/nginx/") ∧
    (∃ pre post, ("/nginx/" : String).data = pre ++ (goTrimSlash "/nginx/").data ++ post ∧
      (∀ c ∈ pre, c = '/') ∧ (∀ c ∈ post, c = '/')) ∧
    (∀ c, (goTrimSlash "/nginx/").data.head? = some c → c ≠ '/') ∧
    (∀ c, (goTrimSlash "/nginx/").data.getLast? = some c → c ≠ '/')) ∧
    goTrimSlash "/nginx/" = "nginx" :=
  ⟨display_name_trims_both [] envStatsFail slashC cjEx "/nginx/" [] rfl rfl, by decide⟩
